import Mathlib

/-!
Shallow embedding of the social-graph core of the insta-clone repository.

Rows of the relational schema (`src/unnamed/part_003`) become Lean structures,
the database state becomes lists of rows plus the serial-id sequences, and each
TypeScript handler becomes a pure function `DB → … → Except Err α × DB`
returning the handler result together with the post-state (on a thrown error
the post-state is the pre-state, which is faithful because in every handler all
guards run before any write, and multi-row writes sit in one transaction or
cannot fail mid-way in the sequential semantics).

Timestamps are integer milliseconds; `new Date()` at the start of a handler is
modelled by a single `now : Int` parameter.  Nullable text columns are
`Option String`; JavaScript falsiness of such a value (`!x`) holds for both
`null`/absent and the empty string.
-/

namespace InstaClone

/-- Row of `users` (`usersTable` in `src/unnamed/part_003`). -/
structure User where
  id : Nat
  username : String
  email : String
  full_name : Option String
  bio : Option String
  profile_image_url : Option String
  is_verified : Bool
  follower_count : Int
  following_count : Int
  posts_count : Int
  is_private : Bool
  created_at : Int
  updated_at : Int
  deriving Repr, DecidableEq

/-- Row of `posts` (`postsTable`). -/
structure Post where
  id : Nat
  user_id : Nat
  caption : Option String
  image_url : Option String
  video_url : Option String
  like_count : Int
  comment_count : Int
  created_at : Int
  updated_at : Int
  deriving Repr, DecidableEq

/-- Row of `stories` (`storiesTable`). -/
structure Story where
  id : Nat
  user_id : Nat
  image_url : Option String
  video_url : Option String
  view_count : Int
  expires_at : Int
  created_at : Int
  deriving Repr, DecidableEq

/-- Row of `likes` (`likesTable`). -/
structure Like where
  id : Nat
  user_id : Nat
  post_id : Nat
  created_at : Int
  deriving Repr, DecidableEq

/-- Row of `comments` (`commentsTable`). -/
structure Comment where
  id : Nat
  user_id : Nat
  post_id : Nat
  content : String
  like_count : Int
  created_at : Int
  updated_at : Int
  deriving Repr, DecidableEq

/-- Row of `follows` (`followsTable`). -/
structure Follow where
  id : Nat
  follower_id : Nat
  following_id : Nat
  created_at : Int
  deriving Repr, DecidableEq

/-- Row of `direct_messages` (`directMessagesTable`). -/
structure DirectMessage where
  id : Nat
  sender_id : Nat
  receiver_id : Nat
  content : String
  is_read : Bool
  created_at : Int
  deriving Repr, DecidableEq

/-- The relational store: one list per table (row order is insertion order, so
`db.select …` without `orderBy` returns rows in list order) plus the `serial`
sequences of the tables the handlers insert into. -/
structure DB where
  users : List User
  posts : List Post
  stories : List Story
  likes : List Like
  comments : List Comment
  follows : List Follow
  directMessages : List DirectMessage
  nextPostId : Nat
  nextStoryId : Nat
  nextLikeId : Nat
  nextCommentId : Nat
  nextFollowId : Nat
  deriving Repr, DecidableEq

/-- The errors the handlers throw, one constructor per distinct `throw new
Error(…)` site; names follow the spec's taxonomy (`selfFollow` =
SelfReferenceError, `followExists`/`alreadyLiked` = DuplicateRelationship,
`followMissing`/`likeMissing` = RelationshipNotFound, `noMedia` =
ValidationError, the rest = NotFound). -/
inductive Err where
  | selfFollow
  | followerNotFound
  | followingNotFound
  | followExists
  | followMissing
  | userNotFound
  | postNotFound
  | alreadyLiked
  | likeMissing
  | noMedia
  | messageNotAccessible
  deriving Repr, DecidableEq

/-- JavaScript falsiness of a nullable text value: `!x` is true for
`null`/`undefined` and for the empty string. -/
def jsFalsy : Option String → Bool
  | none => true
  | some s => s == ""

/-- `followUser` (`src/unnamed/part_005`): self-check, both users fetched and
checked, duplicate-edge check, then one transaction inserting the edge and
bumping `following_count` of the follower and `follower_count` of the followed
user from the values fetched before the transaction. -/
def followUser (db : DB) (follower_id following_id : Nat) (now : Int) :
    Except Err Follow × DB :=
  if follower_id == following_id then (.error .selfFollow, db)
  else
    match db.users.find? (fun u => u.id == follower_id),
          db.users.find? (fun u => u.id == following_id) with
    | none, _ => (.error .followerNotFound, db)
    | some _, none => (.error .followingNotFound, db)
    | some followerUser, some followingUser =>
      if (db.follows.filter
            (fun f => f.follower_id == follower_id &&
                      f.following_id == following_id)).length ≠ 0 then
        (.error .followExists, db)
      else
        let newFollow : Follow :=
          { id := db.nextFollowId, follower_id := follower_id,
            following_id := following_id, created_at := now }
        let users1 := db.users.map fun u =>
          if u.id == follower_id then
            { u with following_count := followerUser.following_count + 1,
                     updated_at := now }
          else u
        let users2 := users1.map fun u =>
          if u.id == following_id then
            { u with follower_count := followingUser.follower_count + 1,
                     updated_at := now }
          else u
        (.ok newFollow,
         { db with follows := db.follows ++ [newFollow], users := users2,
                   nextFollowId := db.nextFollowId + 1 })

/-- `unfollowUser` (`src/unnamed/part_008`): both users checked, edge checked,
then one transaction deleting the matching edge rows and decrementing the two
counters with SQL `count - 1` (the row's current value); `updated_at` is not
touched. -/
def unfollowUser (db : DB) (follower_id following_id : Nat) :
    Except Err Bool × DB :=
  match db.users.find? (fun u => u.id == follower_id) with
  | none => (.error .followerNotFound, db)
  | some _ =>
    match db.users.find? (fun u => u.id == following_id) with
    | none => (.error .followingNotFound, db)
    | some _ =>
      if (db.follows.filter
            (fun f => f.follower_id == follower_id &&
                      f.following_id == following_id)).length == 0 then
        (.error .followMissing, db)
      else
        let follows1 := db.follows.filter
          (fun f => !(f.follower_id == follower_id &&
                      f.following_id == following_id))
        let users1 := db.users.map fun u =>
          if u.id == follower_id then
            { u with following_count := u.following_count - 1 }
          else u
        let users2 := users1.map fun u =>
          if u.id == following_id then
            { u with follower_count := u.follower_count - 1 }
          else u
        (.ok true, { db with follows := follows1, users := users2 })

/-- `likePost` (`src/server/src/handlers/like_post.ts`): user and post checked,
duplicate-like check, insert the like, then set the post's `like_count` to the
pre-fetched value plus one. -/
def likePost (db : DB) (user_id post_id : Nat) (now : Int) :
    Except Err Like × DB :=
  match db.users.find? (fun u => u.id == user_id) with
  | none => (.error .userNotFound, db)
  | some _ =>
    match db.posts.find? (fun p => p.id == post_id) with
    | none => (.error .postNotFound, db)
    | some post =>
      if (db.likes.filter
            (fun l => l.user_id == user_id && l.post_id == post_id)).length ≠ 0 then
        (.error .alreadyLiked, db)
      else
        let newLike : Like :=
          { id := db.nextLikeId, user_id := user_id, post_id := post_id,
            created_at := now }
        let posts1 := db.posts.map fun p =>
          if p.id == post_id then
            { p with like_count := post.like_count + 1, updated_at := now }
          else p
        (.ok newLike,
         { db with likes := db.likes ++ [newLike], posts := posts1,
                   nextLikeId := db.nextLikeId + 1 })

/-- `unlikePost` (`src/unnamed/part_009`): user, post and like checked, delete
the matching like rows, then set the post's `like_count` to the pre-fetched
value minus one. -/
def unlikePost (db : DB) (user_id post_id : Nat) (now : Int) :
    Except Err Bool × DB :=
  match db.users.find? (fun u => u.id == user_id) with
  | none => (.error .userNotFound, db)
  | some _ =>
    match db.posts.find? (fun p => p.id == post_id) with
    | none => (.error .postNotFound, db)
    | some post =>
      if (db.likes.filter
            (fun l => l.user_id == user_id && l.post_id == post_id)).length == 0 then
        (.error .likeMissing, db)
      else
        let likes1 := db.likes.filter
          (fun l => !(l.user_id == user_id && l.post_id == post_id))
        let posts1 := db.posts.map fun p =>
          if p.id == post_id then
            { p with like_count := post.like_count - 1, updated_at := now }
          else p
        (.ok true, { db with likes := likes1, posts := posts1 })

/-- `createPost` (`src/unnamed/part_004`): media validation (JS falsiness of
both urls), user check, insert the post, then set the user's `posts_count` to
the pre-fetched value plus one. -/
def createPost (db : DB) (user_id : Nat)
    (caption image_url video_url : Option String) (now : Int) :
    Except Err Post × DB :=
  if jsFalsy image_url && jsFalsy video_url then (.error .noMedia, db)
  else
    match db.users.find? (fun u => u.id == user_id) with
    | none => (.error .userNotFound, db)
    | some user =>
      let post : Post :=
        { id := db.nextPostId, user_id := user_id, caption := caption,
          image_url := image_url, video_url := video_url, like_count := 0,
          comment_count := 0, created_at := now, updated_at := now }
      let users1 := db.users.map fun u =>
        if u.id == user_id then
          { u with posts_count := user.posts_count + 1, updated_at := now }
        else u
      (.ok post,
       { db with posts := db.posts ++ [post], users := users1,
                 nextPostId := db.nextPostId + 1 })

/-- `createComment` (`src/unnamed/part_007`): user and post checked, insert the
comment with `like_count := 0`, then set the post's `comment_count` to the
pre-fetched value plus one. -/
def createComment (db : DB) (user_id post_id : Nat) (content : String)
    (now : Int) : Except Err Comment × DB :=
  match db.users.find? (fun u => u.id == user_id) with
  | none => (.error .userNotFound, db)
  | some _ =>
    match db.posts.find? (fun p => p.id == post_id) with
    | none => (.error .postNotFound, db)
    | some post =>
      let comment : Comment :=
        { id := db.nextCommentId, user_id := user_id, post_id := post_id,
          content := content, like_count := 0, created_at := now,
          updated_at := now }
      let posts1 := db.posts.map fun p =>
        if p.id == post_id then
          { p with comment_count := post.comment_count + 1, updated_at := now }
        else p
      (.ok comment,
       { db with comments := db.comments ++ [comment], posts := posts1,
                 nextCommentId := db.nextCommentId + 1 })

/-- One hour in integer milliseconds. -/
def hourMs : Int := 3600000

/-- `createStory` (`src/server/src/handlers/create_story.ts`): media
validation, user check, then insert with `expires_at` set 24 hours after the
handler's `new Date()`; `created_at` is the insert-time default, modelled by
the same `now`. -/
def createStory (db : DB) (user_id : Nat) (image_url video_url : Option String)
    (now : Int) : Except Err Story × DB :=
  if jsFalsy image_url && jsFalsy video_url then (.error .noMedia, db)
  else
    match db.users.find? (fun u => u.id == user_id) with
    | none => (.error .userNotFound, db)
    | some _ =>
      let story : Story :=
        { id := db.nextStoryId, user_id := user_id, image_url := image_url,
          video_url := video_url, view_count := 0,
          expires_at := now + 24 * hourMs, created_at := now }
      (.ok story,
       { db with stories := db.stories ++ [story],
                 nextStoryId := db.nextStoryId + 1 })

/-- `ORDER BY created_at DESC`: newer (or equal) first. -/
def storyOrder (a b : Story) : Prop := b.created_at ≤ a.created_at

instance : DecidableRel storyOrder := fun a b =>
  inferInstanceAs (Decidable (b.created_at ≤ a.created_at))

instance : IsTotal Story storyOrder :=
  ⟨fun a b => Int.le_total b.created_at a.created_at⟩

instance : IsTrans Story storyOrder :=
  ⟨fun _ _ _ h1 h2 => le_trans h2 h1⟩

/-- `getUserStories` (`src/unnamed/part_011`): fetch the user's stories ordered
by `created_at` descending, take `now` once, then filter application-side to
the stories with `expires_at > now`. -/
def getUserStories (db : DB) (user_id : Nat) (now : Int) : List Story :=
  let results :=
    List.insertionSort storyOrder (db.stories.filter fun s => s.user_id == user_id)
  results.filter fun s => decide (now < s.expires_at)

/-- `markMessageAsRead` (`src/server/src/handlers/mark_message_as_read.ts`):
one select on `id = message_id AND receiver_id = user_id` guards the update;
the update then sets `is_read := true` on the rows with that `id` and returns
the first updated row. -/
def markMessageAsRead (db : DB) (message_id user_id : Nat) :
    Except Err DirectMessage × DB :=
  match db.directMessages.find?
      (fun m => m.id == message_id && m.receiver_id == user_id) with
  | none => (.error .messageNotAccessible, db)
  | some _ =>
    let messages1 := db.directMessages.map fun m =>
      if m.id == message_id then { m with is_read := true } else m
    match messages1.find? (fun m => m.id == message_id) with
    | some m => (.ok m, { db with directMessages := messages1 })
    | none => (.error .messageNotAccessible, { db with directMessages := messages1 })

/-- `updateUserInputSchema` (`src/unnamed/part_012`): every field but `id` is
optional, and `full_name`, `bio`, `profile_image_url` are additionally
nullable, so `undefined`(absent) and `null` are distinct — hence the doubled
`Option` on those three. -/
structure UpdateUserInput where
  id : Nat
  username : Option String
  full_name : Option (Option String)
  bio : Option (Option String)
  profile_image_url : Option (Option String)
  is_private : Option Bool
  deriving Repr, DecidableEq

/-- The `updateData` object of `updateUser`: `updated_at` always, plus every
input field that is not `undefined` (a `null` is written as `null`). -/
def applyUserUpdate (input : UpdateUserInput) (now : Int) (u : User) : User :=
  let u1 := { u with updated_at := now }
  let u2 := match input.username with
    | some v => { u1 with username := v }
    | none => u1
  let u3 := match input.full_name with
    | some v => { u2 with full_name := v }
    | none => u2
  let u4 := match input.bio with
    | some v => { u3 with bio := v }
    | none => u3
  let u5 := match input.profile_image_url with
    | some v => { u4 with profile_image_url := v }
    | none => u4
  match input.is_private with
  | some v => { u5 with is_private := v }
  | none => u5

/-- `updateUser` (`src/server/src/handlers/update_user.ts`): existence check,
then one update of the rows with the given id by the `updateData` object,
returning the first updated row. -/
def updateUser (db : DB) (input : UpdateUserInput) (now : Int) :
    Except Err User × DB :=
  match db.users.find? (fun u => u.id == input.id) with
  | none => (.error .userNotFound, db)
  | some _ =>
    let users1 := db.users.map fun u =>
      if u.id == input.id then applyUserUpdate input now u else u
    match users1.find? (fun u => u.id == input.id) with
    | some u => (.ok u, { db with users := users1 })
    | none => (.error .userNotFound, { db with users := users1 })

/-! ## Row counting and the counter-consistency invariant -/

/-- Number of Follow rows pointing at `uid` (the rows behind `follower_count`). -/
def followerRowCount (fs : List Follow) (uid : Nat) : Nat :=
  fs.countP fun f => f.following_id == uid

/-- Number of Follow rows going out of `uid` (the rows behind `following_count`). -/
def followingRowCount (fs : List Follow) (uid : Nat) : Nat :=
  fs.countP fun f => f.follower_id == uid

/-- Number of Like rows on post `pid` (the rows behind `like_count`). -/
def likeRowCount (ls : List Like) (pid : Nat) : Nat :=
  ls.countP fun l => l.post_id == pid

/-- Number of Follow rows for the ordered pair `(a, b)`. -/
def pairFollowCount (fs : List Follow) (a b : Nat) : Nat :=
  fs.countP fun f => f.follower_id == a && f.following_id == b

/-- Number of Like rows for the pair `(u, p)`. -/
def pairLikeCount (ls : List Like) (u p : Nat) : Nat :=
  ls.countP fun l => l.user_id == u && l.post_id == p

/-- Every denormalized follow/like counter equals the count of its underlying
rows. -/
def CountersConsistent (db : DB) : Prop :=
  (∀ u ∈ db.users,
      u.follower_count = (followerRowCount db.follows u.id : Int) ∧
      u.following_count = (followingRowCount db.follows u.id : Int)) ∧
  ∀ p ∈ db.posts, p.like_count = (likeRowCount db.likes p.id : Int)

/-- The schema's unique constraints `unique_follow` and `unique_user_post_like`:
at most one Follow row per ordered pair and one Like row per pair. -/
def EdgesUnique (db : DB) : Prop :=
  (∀ a b, pairFollowCount db.follows a b ≤ 1) ∧
  ∀ u p, pairLikeCount db.likes u p ≤ 1

/-- Well-formed database state: schema constraints plus counter consistency. -/
def Inv (db : DB) : Prop := EdgesUnique db ∧ CountersConsistent db

/-- One call of one of the four social-graph mutations of the claim. -/
inductive GraphOp where
  | follow (a b : Nat) (t : Int)
  | unfollow (a b : Nat)
  | like (u p : Nat) (t : Int)
  | unlike (u p : Nat) (t : Int)
  deriving Repr, DecidableEq

/-- Run one operation; a thrown error leaves the state as it was (each handler
either commits as a whole or fails before writing). -/
def applyGraphOp (db : DB) : GraphOp → DB
  | .follow a b t => (followUser db a b t).2
  | .unfollow a b => (unfollowUser db a b).2
  | .like u p t => (likePost db u p t).2
  | .unlike u p t => (unlikePost db u p t).2

/-- Run a sequence of operations left to right. -/
def applyGraphOps (db : DB) (ops : List GraphOp) : DB :=
  ops.foldl applyGraphOp db

theorem countP_snoc {α : Type} (l : List α) (p : α → Bool) (x : α) :
    (l ++ [x]).countP p = l.countP p + (if p x then 1 else 0) := by
  by_cases h : p x <;> simp [List.countP_append, List.countP_cons, h]

theorem countP_and_split {α : Type} (l : List α) (p m : α → Bool) :
    l.countP p =
      l.countP (fun a => p a && m a) + (l.filter fun a => !(m a)).countP p := by
  rw [List.countP_filter]
  induction l with
  | nil => simp
  | cons a t ih =>
    by_cases hp : p a <;> by_cases hm : m a <;>
      simp [List.countP_cons, hp, hm] <;> omega

/-- The success branch of `followUser`, as an equation. -/
theorem followUser_ok_state (db : DB) (a b : Nat) (t : Int) (fu fo : User)
    (hne : (a == b) = false)
    (ha : db.users.find? (fun u => u.id == a) = some fu)
    (hb : db.users.find? (fun u => u.id == b) = some fo)
    (hdup : (db.follows.filter
        fun f => f.follower_id == a && f.following_id == b).length = 0) :
    followUser db a b t =
      (.ok { id := db.nextFollowId, follower_id := a, following_id := b,
             created_at := t },
       { db with
           follows := db.follows ++
             [{ id := db.nextFollowId, follower_id := a, following_id := b,
                created_at := t }],
           users := (db.users.map fun u =>
              if u.id == a then
                { u with following_count := fu.following_count + 1,
                         updated_at := t }
              else u).map fun u =>
              if u.id == b then
                { u with follower_count := fo.follower_count + 1,
                         updated_at := t }
              else u,
           nextFollowId := db.nextFollowId + 1 }) := by
  simp [followUser, hne, ha, hb, hdup]

theorem pairFollowCount_snoc (fs : List Follow) (f : Follow) (a b : Nat) :
    pairFollowCount (fs ++ [f]) a b =
      pairFollowCount fs a b +
        (if f.follower_id == a && f.following_id == b then 1 else 0) := by
  rw [pairFollowCount, countP_snoc]; rfl

theorem followerRowCount_snoc (fs : List Follow) (f : Follow) (uid : Nat) :
    followerRowCount (fs ++ [f]) uid =
      followerRowCount fs uid + (if f.following_id == uid then 1 else 0) := by
  rw [followerRowCount, countP_snoc]; rfl

theorem followingRowCount_snoc (fs : List Follow) (f : Follow) (uid : Nat) :
    followingRowCount (fs ++ [f]) uid =
      followingRowCount fs uid + (if f.follower_id == uid then 1 else 0) := by
  rw [followingRowCount, countP_snoc]; rfl

theorem pairLikeCount_snoc (ls : List Like) (l : Like) (u p : Nat) :
    pairLikeCount (ls ++ [l]) u p =
      pairLikeCount ls u p +
        (if l.user_id == u && l.post_id == p then 1 else 0) := by
  rw [pairLikeCount, countP_snoc]; rfl

theorem likeRowCount_snoc (ls : List Like) (l : Like) (pid : Nat) :
    likeRowCount (ls ++ [l]) pid =
      likeRowCount ls pid + (if l.post_id == pid then 1 else 0) := by
  rw [likeRowCount, countP_snoc]; rfl

/-- A successful `followUser` keeps the state well-formed. -/
theorem followUser_succ_inv (db : DB) (a b : Nat) (t : Int) (fu fo : User)
    (hne : (a == b) = false)
    (ha : db.users.find? (fun u => u.id == a) = some fu)
    (hb : db.users.find? (fun u => u.id == b) = some fo)
    (hdup : (db.follows.filter
        fun f => f.follower_id == a && f.following_id == b).length = 0)
    (hInv : Inv db) : Inv (followUser db a b t).2 := by
  have hfa : fu.id = a := by simpa using List.find?_some ha
  have hfb : fo.id = b := by simpa using List.find?_some hb
  have hfu_mem : fu ∈ db.users := List.mem_of_find?_eq_some ha
  have hfo_mem : fo ∈ db.users := List.mem_of_find?_eq_some hb
  have hab : a ≠ b := by simpa using hne
  obtain ⟨⟨hWfollow, hWlike⟩, hCu, hCp⟩ := hInv
  have hdup' : pairFollowCount db.follows a b = 0 := by
    rw [pairFollowCount, List.countP_eq_length_filter]; exact hdup
  rw [followUser_ok_state db a b t fu fo hne ha hb hdup]
  simp only [Inv, EdgesUnique, CountersConsistent]
  refine ⟨⟨?_, ?_⟩, ?_, ?_⟩
  · -- unique follows
    intro x y
    rw [pairFollowCount_snoc]
    split
    next hcond =>
      simp only [Bool.and_eq_true, beq_iff_eq] at hcond
      obtain ⟨h1, h2⟩ := hcond
      rw [← h1, ← h2, hdup']
    next hcond =>
      simpa using hWfollow x y
  · -- unique likes (unchanged)
    intro u p
    exact hWlike u p
  · -- user counters
    intro u' hu'
    simp only [List.mem_map] at hu'
    obtain ⟨u, hu, rfl⟩ := hu'
    obtain ⟨u, hu, rfl⟩ := hu
    by_cases hua : u.id = a
    · have hub : u.id ≠ b := by rw [hua]; exact hab
      have hfueq : fu.following_count = u.following_count := by
        rw [(hCu u hu).2, (hCu fu hfu_mem).2, hfa, hua]
      simp only [hua, beq_self_eq_true, if_true]
      simp only [show (a == b) = false by simpa using hab,
        Bool.false_eq_true, if_false]
      rw [followerRowCount_snoc, followingRowCount_snoc]
      constructor
      · simp [show (b == a) = false by simpa using Ne.symm hab,
          (hCu u hu).1, hua]
      · simp [hfueq, (hCu u hu).2, hua]
    · by_cases hub : u.id = b
      · have hfoeq : fo.follower_count = u.follower_count := by
          rw [(hCu u hu).1, (hCu fo hfo_mem).1, hfb, hub]
        simp only [show (u.id == a) = false by simpa using hua,
          Bool.false_eq_true, if_false]
        simp only [hub, beq_self_eq_true, if_true]
        rw [followerRowCount_snoc, followingRowCount_snoc]
        constructor
        · simp [hfoeq, (hCu u hu).1, hub]
        · simp [show (a == b) = false by simpa using hab, (hCu u hu).2, hub]
      · simp only [show (u.id == a) = false by simpa using hua,
          Bool.false_eq_true, if_false]
        simp only [show (u.id == b) = false by simpa using hub,
          Bool.false_eq_true, if_false]
        rw [followerRowCount_snoc, followingRowCount_snoc]
        constructor
        · simp [show (b == u.id) = false by simpa using Ne.symm hub,
            (hCu u hu).1]
        · simp [show (a == u.id) = false by simpa using Ne.symm hua,
            (hCu u hu).2]
  · -- post counters unchanged
    intro p hp
    exact hCp p hp

theorem countP_filter_not_of_imp {α : Type} (l : List α) (p m : α → Bool)
    (himp : ∀ x ∈ l, m x = true → p x = true) :
    (l.filter fun x => !(m x)).countP p = l.countP p - l.countP m := by
  have hsplit := countP_and_split l p m
  have heq : l.countP (fun a => p a && m a) = l.countP m := by
    refine List.countP_congr fun x hx => ?_
    constructor
    · intro h
      exact (Bool.and_eq_true _ _).mp h |>.2
    · intro h
      simp [h, himp x hx h]
  omega

theorem countP_filter_not_of_disjoint {α : Type} (l : List α) (p m : α → Bool)
    (hdis : ∀ x ∈ l, m x = true → p x = false) :
    (l.filter fun x => !(m x)).countP p = l.countP p := by
  have hsplit := countP_and_split l p m
  have heq : l.countP (fun a => p a && m a) = 0 := by
    refine List.countP_eq_zero.mpr fun x hx h => ?_
    obtain ⟨hp, hm⟩ := (Bool.and_eq_true _ _).mp h
    rw [hdis x hx hm] at hp
    exact Bool.false_ne_true hp
  omega

/-- The success branch of `unfollowUser`, as an equation. -/
theorem unfollowUser_ok_state (db : DB) (a b : Nat) (fu fo : User)
    (ha : db.users.find? (fun u => u.id == a) = some fu)
    (hb : db.users.find? (fun u => u.id == b) = some fo)
    (hex : ((db.follows.filter
        fun f => f.follower_id == a && f.following_id == b).length == 0) = false) :
    unfollowUser db a b =
      (.ok true,
       { db with
           follows := db.follows.filter
             fun f => !(f.follower_id == a && f.following_id == b),
           users := (db.users.map fun u =>
              if u.id == a then { u with following_count := u.following_count - 1 }
              else u).map fun u =>
              if u.id == b then { u with follower_count := u.follower_count - 1 }
              else u }) := by
  simp only [unfollowUser, ha, hb, hex, Bool.false_eq_true, if_false]

/-- A successful `unfollowUser` keeps the state well-formed (no self-edge
hypothesis is needed: when `a = b` both decrements land on the same row). -/
theorem unfollowUser_succ_inv (db : DB) (a b : Nat) (fu fo : User)
    (ha : db.users.find? (fun u => u.id == a) = some fu)
    (hb : db.users.find? (fun u => u.id == b) = some fo)
    (hex : ((db.follows.filter
        fun f => f.follower_id == a && f.following_id == b).length == 0) = false)
    (hInv : Inv db) : Inv (unfollowUser db a b).2 := by
  obtain ⟨⟨hWfollow, hWlike⟩, hCu, hCp⟩ := hInv
  have hcnt1 : db.follows.countP
      (fun f => f.follower_id == a && f.following_id == b) = 1 := by
    have hge : (db.follows.filter
        fun f => f.follower_id == a && f.following_id == b).length ≠ 0 := by
      simpa using hex
    have hle := hWfollow a b
    rw [pairFollowCount, List.countP_eq_length_filter] at hle
    rw [List.countP_eq_length_filter]
    omega
  have hfollowing : ∀ uid, followingRowCount (db.follows.filter
      fun f => !(f.follower_id == a && f.following_id == b)) uid =
      followingRowCount db.follows uid - (if uid = a then 1 else 0) := by
    intro uid
    by_cases huid : uid = a
    · subst huid
      rw [followingRowCount, followingRowCount,
        countP_filter_not_of_imp _ _ _
          (fun x _ h => ((Bool.and_eq_true _ _).mp h).1), hcnt1, if_pos rfl]
    · rw [followingRowCount, followingRowCount,
        countP_filter_not_of_disjoint _ _ _ ?_, if_neg huid, Nat.sub_zero]
      intro x _ h
      have hx := ((Bool.and_eq_true _ _).mp h).1
      have : x.follower_id = a := by simpa using hx
      simp [this, Ne.symm huid]
  have hfollower : ∀ uid, followerRowCount (db.follows.filter
      fun f => !(f.follower_id == a && f.following_id == b)) uid =
      followerRowCount db.follows uid - (if uid = b then 1 else 0) := by
    intro uid
    by_cases huid : uid = b
    · subst huid
      rw [followerRowCount, followerRowCount,
        countP_filter_not_of_imp _ _ _
          (fun x _ h => ((Bool.and_eq_true _ _).mp h).2), hcnt1, if_pos rfl]
    · rw [followerRowCount, followerRowCount,
        countP_filter_not_of_disjoint _ _ _ ?_, if_neg huid, Nat.sub_zero]
      intro x _ h
      have hx := ((Bool.and_eq_true _ _).mp h).2
      have : x.following_id = b := by simpa using hx
      simp [this, Ne.symm huid]
  have hgeA : 1 ≤ followingRowCount db.follows a := by
    rw [followingRowCount, ← hcnt1]
    exact List.countP_mono_left fun x _ h => ((Bool.and_eq_true _ _).mp h).1
  have hgeB : 1 ≤ followerRowCount db.follows b := by
    rw [followerRowCount, ← hcnt1]
    exact List.countP_mono_left fun x _ h => ((Bool.and_eq_true _ _).mp h).2
  rw [unfollowUser_ok_state db a b fu fo ha hb hex]
  simp only [Inv, EdgesUnique, CountersConsistent]
  refine ⟨⟨?_, ?_⟩, ?_, ?_⟩
  · -- unique follows: deletion only shrinks
    intro x y
    refine le_trans ?_ (hWfollow x y)
    rw [pairFollowCount, pairFollowCount]
    exact (List.filter_sublist _).countP_le _
  · intro u p
    exact hWlike u p
  · -- user counters
    intro u' hu'
    simp only [List.mem_map] at hu'
    obtain ⟨u, hu, rfl⟩ := hu'
    obtain ⟨u, hu, rfl⟩ := hu
    by_cases hua : u.id = a
    · by_cases hub : u.id = b
      · have hab : a = b := hua.symm.trans hub
        simp only [hua, beq_self_eq_true, if_true]
        simp only [show (a == b) = true by simpa using hab, if_true]
        constructor
        · rw [hfollower, if_pos hab]
          have h1 := (hCu u hu).1
          have hge := hgeB
          rw [← hab] at hge
          rw [h1, hua]
          omega
        · rw [hfollowing, if_pos rfl]
          have h2 := (hCu u hu).2
          rw [h2, hua]
          omega
      · have hnab : ¬a = b := fun h => hub (hua.trans h)
        simp only [hua, beq_self_eq_true, if_true]
        simp only [show (a == b) = false by simpa using hnab,
          Bool.false_eq_true, if_false]
        constructor
        · rw [hfollower, if_neg hnab]
          have h1 := (hCu u hu).1
          rw [h1, hua, Nat.sub_zero]
        · rw [hfollowing, if_pos rfl]
          have h2 := (hCu u hu).2
          rw [h2, hua]
          omega
    · by_cases hub : u.id = b
      · have hnba : ¬b = a := fun h => hua (hub.trans h)
        simp only [show (u.id == a) = false by simpa using hua,
          Bool.false_eq_true, if_false]
        simp only [hub, beq_self_eq_true, if_true]
        constructor
        · rw [hfollower, if_pos rfl]
          have h1 := (hCu u hu).1
          rw [h1, hub]
          omega
        · rw [hfollowing, if_neg hnba]
          have h2 := (hCu u hu).2
          rw [h2, hub, Nat.sub_zero]
      · simp only [show (u.id == a) = false by simpa using hua,
          Bool.false_eq_true, if_false]
        simp only [show (u.id == b) = false by simpa using hub,
          Bool.false_eq_true, if_false]
        constructor
        · rw [hfollower, if_neg (fun h => hub h), Nat.sub_zero]
          exact (hCu u hu).1
        · rw [hfollowing, if_neg (fun h => hua h), Nat.sub_zero]
          exact (hCu u hu).2
  · intro p hp
    exact hCp p hp

/-- The success branch of `likePost`, as an equation. -/
theorem likePost_ok_state (db : DB) (u p : Nat) (t : Int) (user : User)
    (post : Post)
    (hu : db.users.find? (fun x => x.id == u) = some user)
    (hp : db.posts.find? (fun x => x.id == p) = some post)
    (hdup : (db.likes.filter
        fun l => l.user_id == u && l.post_id == p).length = 0) :
    likePost db u p t =
      (.ok { id := db.nextLikeId, user_id := u, post_id := p, created_at := t },
       { db with
           likes := db.likes ++
             [{ id := db.nextLikeId, user_id := u, post_id := p,
                created_at := t }],
           posts := db.posts.map fun q =>
             if q.id == p then
               { q with like_count := post.like_count + 1, updated_at := t }
             else q,
           nextLikeId := db.nextLikeId + 1 }) := by
  simp [likePost, hu, hp, hdup]

/-- A successful `likePost` keeps the state well-formed. -/
theorem likePost_succ_inv (db : DB) (u p : Nat) (t : Int) (user : User)
    (post : Post)
    (hu : db.users.find? (fun x => x.id == u) = some user)
    (hp : db.posts.find? (fun x => x.id == p) = some post)
    (hdup : (db.likes.filter
        fun l => l.user_id == u && l.post_id == p).length = 0)
    (hInv : Inv db) : Inv (likePost db u p t).2 := by
  have hpid : post.id = p := by simpa using List.find?_some hp
  have hpost_mem : post ∈ db.posts := List.mem_of_find?_eq_some hp
  obtain ⟨⟨hWfollow, hWlike⟩, hCu, hCp⟩ := hInv
  have hdup' : pairLikeCount db.likes u p = 0 := by
    rw [pairLikeCount, List.countP_eq_length_filter]; exact hdup
  rw [likePost_ok_state db u p t user post hu hp hdup]
  simp only [Inv, EdgesUnique, CountersConsistent]
  refine ⟨⟨?_, ?_⟩, ?_, ?_⟩
  · intro x y
    exact hWfollow x y
  · intro x y
    rw [pairLikeCount_snoc]
    split
    next hcond =>
      simp only [Bool.and_eq_true, beq_iff_eq] at hcond
      obtain ⟨h1, h2⟩ := hcond
      rw [← h1, ← h2, hdup']
    next hcond =>
      simpa using hWlike x y
  · intro x hx
    exact hCu x hx
  · intro q' hq'
    simp only [List.mem_map] at hq'
    obtain ⟨q, hq, rfl⟩ := hq'
    rw [likeRowCount_snoc]
    by_cases hqp : q.id = p
    · have hqeq : post.like_count = q.like_count := by
        rw [(hCp q hq), (hCp post hpost_mem), hpid, hqp]
      simp only [hqp, beq_self_eq_true, if_true]
      simp [hqeq, (hCp q hq), hqp]
    · simp only [show (q.id == p) = false by simpa using hqp,
        Bool.false_eq_true, if_false]
      simp [show (p == q.id) = false by simpa using Ne.symm hqp, (hCp q hq)]

/-- The success branch of `unlikePost`, as an equation. -/
theorem unlikePost_ok_state (db : DB) (u p : Nat) (t : Int) (user : User)
    (post : Post)
    (hu : db.users.find? (fun x => x.id == u) = some user)
    (hp : db.posts.find? (fun x => x.id == p) = some post)
    (hex : ((db.likes.filter
        fun l => l.user_id == u && l.post_id == p).length == 0) = false) :
    unlikePost db u p t =
      (.ok true,
       { db with
           likes := db.likes.filter
             fun l => !(l.user_id == u && l.post_id == p),
           posts := db.posts.map fun q =>
             if q.id == p then
               { q with like_count := post.like_count - 1, updated_at := t }
             else q }) := by
  simp only [unlikePost, hu, hp, hex, Bool.false_eq_true, if_false]

/-- A successful `unlikePost` keeps the state well-formed. -/
theorem unlikePost_succ_inv (db : DB) (u p : Nat) (t : Int) (user : User)
    (post : Post)
    (hu : db.users.find? (fun x => x.id == u) = some user)
    (hp : db.posts.find? (fun x => x.id == p) = some post)
    (hex : ((db.likes.filter
        fun l => l.user_id == u && l.post_id == p).length == 0) = false)
    (hInv : Inv db) : Inv (unlikePost db u p t).2 := by
  have hpid : post.id = p := by simpa using List.find?_some hp
  have hpost_mem : post ∈ db.posts := List.mem_of_find?_eq_some hp
  obtain ⟨⟨hWfollow, hWlike⟩, hCu, hCp⟩ := hInv
  have hcnt1 : db.likes.countP
      (fun l => l.user_id == u && l.post_id == p) = 1 := by
    have hge : (db.likes.filter
        fun l => l.user_id == u && l.post_id == p).length ≠ 0 := by
      simpa using hex
    have hle := hWlike u p
    rw [pairLikeCount, List.countP_eq_length_filter] at hle
    rw [List.countP_eq_length_filter]
    omega
  have hlrc : ∀ pid, likeRowCount (db.likes.filter
      fun l => !(l.user_id == u && l.post_id == p)) pid =
      likeRowCount db.likes pid - (if pid = p then 1 else 0) := by
    intro pid
    by_cases hpidq : pid = p
    · subst hpidq
      rw [likeRowCount, likeRowCount,
        countP_filter_not_of_imp _ _ _
          (fun x _ h => ((Bool.and_eq_true _ _).mp h).2), hcnt1, if_pos rfl]
    · rw [likeRowCount, likeRowCount,
        countP_filter_not_of_disjoint _ _ _ ?_, if_neg hpidq, Nat.sub_zero]
      intro x _ h
      have hx := ((Bool.and_eq_true _ _).mp h).2
      have : x.post_id = p := by simpa using hx
      simp [this, Ne.symm hpidq]
  have hgeP : 1 ≤ likeRowCount db.likes p := by
    rw [likeRowCount, ← hcnt1]
    exact List.countP_mono_left fun x _ h => ((Bool.and_eq_true _ _).mp h).2
  rw [unlikePost_ok_state db u p t user post hu hp hex]
  simp only [Inv, EdgesUnique, CountersConsistent]
  refine ⟨⟨?_, ?_⟩, ?_, ?_⟩
  · intro x y
    exact hWfollow x y
  · intro x y
    refine le_trans ?_ (hWlike x y)
    rw [pairLikeCount, pairLikeCount]
    exact (List.filter_sublist _).countP_le _
  · intro x hx
    exact hCu x hx
  · intro q' hq'
    simp only [List.mem_map] at hq'
    obtain ⟨q, hq, rfl⟩ := hq'
    by_cases hqp : q.id = p
    · have hqeq : post.like_count = q.like_count := by
        rw [(hCp q hq), (hCp post hpost_mem), hpid, hqp]
      simp only [hqp, beq_self_eq_true, if_true]
      rw [hlrc, if_pos rfl, hqeq, (hCp q hq), hqp]
      omega
    · simp only [show (q.id == p) = false by simpa using hqp,
        Bool.false_eq_true, if_false]
      rw [hlrc, if_neg hqp, Nat.sub_zero]
      exact hCp q hq

/-- `followUser` preserves well-formedness whether it succeeds or fails. -/
theorem followUser_preserves (db : DB) (a b : Nat) (t : Int) (hInv : Inv db) :
    Inv (followUser db a b t).2 := by
  by_cases hne : (a == b) = true
  · simp only [followUser, hne, if_true]
    exact hInv
  · have hne' : (a == b) = false := by simpa using hne
    cases hA : db.users.find? (fun x => x.id == a) with
    | none =>
      simp only [followUser, hne', Bool.false_eq_true, if_false, hA]
      exact hInv
    | some fu =>
      cases hB : db.users.find? (fun x => x.id == b) with
      | none =>
        simp only [followUser, hne', Bool.false_eq_true, if_false, hA, hB]
        exact hInv
      | some fo =>
        by_cases hdup : (db.follows.filter
            fun f => f.follower_id == a && f.following_id == b).length = 0
        · exact followUser_succ_inv db a b t fu fo hne' hA hB hdup hInv
        · simp only [followUser, hne', Bool.false_eq_true, if_false, hA, hB,
            ne_eq, hdup, not_false_eq_true, if_true]
          exact hInv

/-- `unfollowUser` preserves well-formedness whether it succeeds or fails. -/
theorem unfollowUser_preserves (db : DB) (a b : Nat) (hInv : Inv db) :
    Inv (unfollowUser db a b).2 := by
  cases hA : db.users.find? (fun x => x.id == a) with
  | none =>
    simp only [unfollowUser, hA]
    exact hInv
  | some fu =>
    cases hB : db.users.find? (fun x => x.id == b) with
    | none =>
      simp only [unfollowUser, hA, hB]
      exact hInv
    | some fo =>
      by_cases hex : ((db.follows.filter
          fun f => f.follower_id == a && f.following_id == b).length == 0) = true
      · simp only [unfollowUser, hA, hB, hex, if_true]
        exact hInv
      · exact unfollowUser_succ_inv db a b fu fo hA hB (by simpa using hex) hInv

/-- `likePost` preserves well-formedness whether it succeeds or fails. -/
theorem likePost_preserves (db : DB) (u p : Nat) (t : Int) (hInv : Inv db) :
    Inv (likePost db u p t).2 := by
  cases hU : db.users.find? (fun x => x.id == u) with
  | none =>
    simp only [likePost, hU]
    exact hInv
  | some user =>
    cases hP : db.posts.find? (fun x => x.id == p) with
    | none =>
      simp only [likePost, hU, hP]
      exact hInv
    | some post =>
      by_cases hdup : (db.likes.filter
          fun l => l.user_id == u && l.post_id == p).length = 0
      · exact likePost_succ_inv db u p t user post hU hP hdup hInv
      · simp only [likePost, hU, hP, ne_eq, hdup, not_false_eq_true, if_true]
        exact hInv

/-- `unlikePost` preserves well-formedness whether it succeeds or fails. -/
theorem unlikePost_preserves (db : DB) (u p : Nat) (t : Int) (hInv : Inv db) :
    Inv (unlikePost db u p t).2 := by
  cases hU : db.users.find? (fun x => x.id == u) with
  | none =>
    simp only [unlikePost, hU]
    exact hInv
  | some user =>
    cases hP : db.posts.find? (fun x => x.id == p) with
    | none =>
      simp only [unlikePost, hU, hP]
      exact hInv
    | some post =>
      by_cases hex : ((db.likes.filter
          fun l => l.user_id == u && l.post_id == p).length == 0) = true
      · simp only [unlikePost, hU, hP, hex, if_true]
        exact hInv
      · exact unlikePost_succ_inv db u p t user post hU hP (by simpa using hex) hInv

/-- Every social-graph operation preserves well-formedness. -/
theorem applyGraphOp_preserves (db : DB) (op : GraphOp) (h : Inv db) :
    Inv (applyGraphOp db op) := by
  cases op with
  | follow a b t => exact followUser_preserves db a b t h
  | unfollow a b => exact unfollowUser_preserves db a b h
  | like u p t => exact likePost_preserves db u p t h
  | unlike u p t => exact unlikePost_preserves db u p t h

/-- Every sequence of social-graph operations preserves well-formedness. -/
theorem applyGraphOps_preserves (ops : List GraphOp) (db : DB) (h : Inv db) :
    Inv (applyGraphOps db ops) := by
  induction ops generalizing db with
  | nil => exact h
  | cons op rest ih => exact ih _ (applyGraphOp_preserves db op h)

/-- C1.  Counter consistency: starting from a well-formed state (the schema's
unique-edge constraints hold, and every denormalized counter equals the count
of its underlying rows), after any sequence of
followUser/unfollowUser/likePost/unlikePost calls (each completing or failing
as a whole), every user `u` has `follower_count = |{f : f.following_id = u.id}|`
and `following_count = |{f : f.follower_id = u.id}|`, and every post `p` has
`like_count = |{l : l.post_id = p.id}|`. -/
theorem c1_counter_consistency (db : DB) (ops : List GraphOp)
    (hWF : EdgesUnique db) (hC : CountersConsistent db) :
    CountersConsistent (applyGraphOps db ops) :=
  (applyGraphOps_preserves ops db ⟨hWF, hC⟩).2

/-- Concrete fixture: user with id 1 and zeroed counters. -/
def aliceW : User :=
  { id := 1, username := "alice", email := "alice@example.com",
    full_name := none, bio := none, profile_image_url := none,
    is_verified := false, follower_count := 0, following_count := 0,
    posts_count := 0, is_private := false, created_at := 0, updated_at := 0 }

/-- Concrete fixture: user with id 2 and zeroed counters. -/
def bobW : User :=
  { id := 2, username := "bob", email := "bob@example.com",
    full_name := none, bio := none, profile_image_url := none,
    is_verified := false, follower_count := 0, following_count := 0,
    posts_count := 0, is_private := false, created_at := 0, updated_at := 0 }

/-- Concrete fixture: post 7 owned by user 1 with zeroed counters. -/
def postW : Post :=
  { id := 7, user_id := 1, caption := none, image_url := some "http://img",
    video_url := none, like_count := 0, comment_count := 0,
    created_at := 0, updated_at := 0 }

/-- Concrete fixture database: two users, one post, no edges. -/
def dbW : DB :=
  { users := [aliceW, bobW], posts := [postW], stories := [], likes := [],
    comments := [], follows := [], directMessages := [],
    nextPostId := 8, nextStoryId := 1, nextLikeId := 1, nextCommentId := 1,
    nextFollowId := 1 }

theorem dbW_edgesUnique : EdgesUnique dbW := by
  constructor
  · intro a b
    simp [pairFollowCount, dbW]
  · intro u p
    simp [pairLikeCount, dbW]

theorem c1_counter_consistency_witness :
    EdgesUnique dbW ∧ CountersConsistent dbW ∧
      CountersConsistent (applyGraphOps dbW
        [GraphOp.follow 1 2 5, GraphOp.like 2 7 6, GraphOp.follow 2 1 7,
         GraphOp.unfollow 1 2, GraphOp.unlike 2 7 8]) :=
  ⟨dbW_edgesUnique,
   by unfold CountersConsistent followerRowCount followingRowCount likeRowCount
      decide,
   c1_counter_consistency dbW _ dbW_edgesUnique
     (by unfold CountersConsistent followerRowCount followingRowCount likeRowCount
         decide)⟩

/-- C3.  For every user id `a` and every state, `followUser` with
`follower_id = following_id = a` fails with the self-reference error
(`'Users cannot follow themselves'`), inserts no Follow row and changes no
counter: the resulting state is exactly the pre-state. -/
theorem c3_self_follow_rejected (db : DB) (a : Nat) (t : Int) :
    followUser db a a t = (.error .selfFollow, db) := by
  simp [followUser]

/-- C4.  For distinct existing users `a`, `b` with no edge `(a, b)`, calling
`followUser a b` twice succeeds the first time and fails the second time with
the duplicate-relationship error, after which exactly one `(a, b)` edge exists
and `a.following_count` and `b.follower_count` each grew by exactly 1. -/
theorem find?_ext {α : Type} (l : List α) {p q : α → Bool}
    (h : ∀ x, p x = q x) : l.find? p = l.find? q := by
  induction l with
  | nil => rfl
  | cons x xs ih =>
    rw [List.find?_cons, List.find?_cons, h x, ih]

theorem c4_follow_twice (db : DB) (a b : Nat) (t t' : Int) (ua ub : User)
    (hne : a ≠ b)
    (ha : db.users.find? (fun x => x.id == a) = some ua)
    (hb : db.users.find? (fun x => x.id == b) = some ub)
    (hno : pairFollowCount db.follows a b = 0) :
    ∃ f db1,
      followUser db a b t = (.ok f, db1) ∧
      followUser db1 a b t' = (.error .followExists, db1) ∧
      pairFollowCount db1.follows a b = 1 ∧
      (db1.users.find? (fun x => x.id == a)).map User.following_count =
        some (ua.following_count + 1) ∧
      (db1.users.find? (fun x => x.id == b)).map User.follower_count =
        some (ub.follower_count + 1) := by
  have hne' : (a == b) = false := by simpa using hne
  have hua : ua.id = a := by simpa using List.find?_some ha
  have hub : ub.id = b := by simpa using List.find?_some hb
  have hno' : (db.follows.filter
      fun f => f.follower_id == a && f.following_id == b).length = 0 := by
    rw [← List.countP_eq_length_filter]
    exact hno
  rw [followUser_ok_state db a b t ua ub hne' ha hb hno']
  have hA2 : ((db.users.map fun u =>
      if u.id == a then
        { u with following_count := ua.following_count + 1, updated_at := t }
      else u).map fun u =>
      if u.id == b then
        { u with follower_count := ub.follower_count + 1, updated_at := t }
      else u).find? (fun x => x.id == a) =
      some { ua with following_count := ua.following_count + 1,
                     updated_at := t } := by
    rw [List.find?_map, List.find?_map]
    rw [find?_ext db.users (q := fun x => x.id == a) ?_, ha]
    · by_cases h1 : ua.id == a <;> by_cases h2 : ua.id == b <;> simp_all
    · intro u
      by_cases h1 : u.id == a <;> by_cases h2 : u.id == b <;> simp_all
  have hB2 : ((db.users.map fun u =>
      if u.id == a then
        { u with following_count := ua.following_count + 1, updated_at := t }
      else u).map fun u =>
      if u.id == b then
        { u with follower_count := ub.follower_count + 1, updated_at := t }
      else u).find? (fun x => x.id == b) =
      some { ub with follower_count := ub.follower_count + 1,
                     updated_at := t } := by
    rw [List.find?_map, List.find?_map]
    rw [find?_ext db.users (q := fun x => x.id == b) ?_, hb]
    · by_cases h1 : ub.id == a <;> by_cases h2 : ub.id == b <;> simp_all
    · intro u
      by_cases h1 : u.id == a <;> by_cases h2 : u.id == b <;> simp_all
  have hlen : ((db.follows ++
      [({ id := db.nextFollowId, follower_id := a, following_id := b,
          created_at := t } : Follow)]).filter
      fun f => f.follower_id == a && f.following_id == b).length = 1 := by
    rw [← List.countP_eq_length_filter, ← pairFollowCount,
      pairFollowCount_snoc, hno]
    simp
  refine ⟨_, _, rfl, ?_, ?_, ?_, ?_⟩
  · simp only [followUser, hne', Bool.false_eq_true, if_false, hA2, hB2, hlen]
    simp
  · rw [pairFollowCount_snoc, hno]
    simp
  · rw [hA2]
    simp
  · rw [hB2]
    simp

theorem c4_follow_twice_witness :
    ((1 : Nat) ≠ 2 ∧
     dbW.users.find? (fun x => x.id == 1) = some aliceW ∧
     dbW.users.find? (fun x => x.id == 2) = some bobW ∧
     pairFollowCount dbW.follows 1 2 = 0) ∧
    ∃ f db1,
      followUser dbW 1 2 5 = (.ok f, db1) ∧
      followUser db1 1 2 9 = (.error .followExists, db1) ∧
      pairFollowCount db1.follows 1 2 = 1 ∧
      (db1.users.find? (fun x => x.id == 1)).map User.following_count =
        some (aliceW.following_count + 1) ∧
      (db1.users.find? (fun x => x.id == 2)).map User.follower_count =
        some (bobW.follower_count + 1) :=
  ⟨⟨by decide, rfl, rfl, rfl⟩,
   c4_follow_twice dbW 1 2 5 9 aliceW bobW (by decide) rfl rfl rfl⟩

/-- C5.  `unfollowUser` fails when either user is missing (user-not-found
errors, checked follower first) or, both users existing, when no Follow edge
`(a, b)` exists (relationship-not-found); in every failure case the state —
all counters and all Follow rows — is exactly the pre-state. -/
theorem c5_unfollow_failure (db : DB) (a b : Nat)
    (h : db.users.find? (fun x => x.id == a) = none ∨
         db.users.find? (fun x => x.id == b) = none ∨
         pairFollowCount db.follows a b = 0) :
    unfollowUser db a b =
      (.error
        (if db.users.find? (fun x => x.id == a) = none then
           Err.followerNotFound
         else if db.users.find? (fun x => x.id == b) = none then
           Err.followingNotFound
         else Err.followMissing), db) := by
  cases hA : db.users.find? (fun x => x.id == a) with
  | none => simp [unfollowUser, hA]
  | some ua =>
    cases hB : db.users.find? (fun x => x.id == b) with
    | none => simp [unfollowUser, hA, hB]
    | some ub =>
      have hcnt : pairFollowCount db.follows a b = 0 := by
        rcases h with h | h | h
        · rw [hA] at h; simp at h
        · rw [hB] at h; simp at h
        · exact h
      have hlen : (db.follows.filter
          fun f => f.follower_id == a && f.following_id == b).length = 0 := by
        rw [← List.countP_eq_length_filter]; exact hcnt
      simp [unfollowUser, hA, hB, hlen]

theorem c5_unfollow_failure_witness :
    (dbW.users.find? (fun x => x.id == 1) = none ∨
     dbW.users.find? (fun x => x.id == 2) = none ∨
     pairFollowCount dbW.follows 1 2 = 0) ∧
    unfollowUser dbW 1 2 =
      (.error
        (if dbW.users.find? (fun x => x.id == 1) = none then
           Err.followerNotFound
         else if dbW.users.find? (fun x => x.id == 2) = none then
           Err.followingNotFound
         else Err.followMissing), dbW) :=
  ⟨Or.inr (Or.inr rfl), c5_unfollow_failure dbW 1 2 (Or.inr (Or.inr rfl))⟩

/-- C6.  `createPost` fails with the media validation error whenever both
`image_url` and `video_url` are absent (both `null`), and — validation passing
— fails with user-not-found when the referenced user does not exist; in either
failure case the state is exactly the pre-state (no Post row, no `posts_count`
change); on success the owning user's `posts_count` grows by exactly 1 and the
new Post row is appended. -/
theorem c6_createPost_guards (db : DB) (uid : Nat)
    (caption image_url video_url : Option String) (t : Int) :
    (image_url = none ∧ video_url = none →
      createPost db uid caption image_url video_url t = (.error .noMedia, db)) ∧
    ((jsFalsy image_url && jsFalsy video_url) = false →
      db.users.find? (fun x => x.id == uid) = none →
      createPost db uid caption image_url video_url t =
        (.error .userNotFound, db)) ∧
    (∀ user, (jsFalsy image_url && jsFalsy video_url) = false →
      db.users.find? (fun x => x.id == uid) = some user →
      ∃ post db1,
        createPost db uid caption image_url video_url t = (.ok post, db1) ∧
        (db1.users.find? (fun x => x.id == uid)).map User.posts_count =
          some (user.posts_count + 1) ∧
        db1.posts = db.posts ++ [post]) := by
  refine ⟨?_, ?_, ?_⟩
  · rintro ⟨h1, h2⟩
    subst h1; subst h2
    simp [createPost, jsFalsy]
  · intro hmedia huser
    simp [createPost, hmedia, huser]
  · intro user hmedia huser
    have huid : user.id = uid := by simpa using List.find?_some huser
    simp only [createPost, hmedia, Bool.false_eq_true, if_false, huser]
    refine ⟨_, _, rfl, ?_, rfl⟩
    rw [List.find?_map]
    rw [find?_ext db.users (q := fun x => x.id == uid) ?_, huser]
    · simp [huid]
    · intro u
      by_cases h1 : u.id == uid <;> simp_all

theorem c6_createPost_guards_witness :
    ((some "http://img" : Option String) = none ∧
        (none : Option String) = none → True) ∧
    createPost dbW 1 none none none 3 = (.error .noMedia, dbW) ∧
    createPost dbW 99 none (some "http://img") none 3 =
      (.error .userNotFound, dbW) ∧
    ∃ post db1,
      createPost dbW 1 none (some "http://img") none 3 = (.ok post, db1) ∧
      (db1.users.find? (fun x => x.id == 1)).map User.posts_count =
        some (aliceW.posts_count + 1) ∧
      db1.posts = dbW.posts ++ [post] := by
  refine ⟨fun _ => trivial, ?_, ?_, ?_⟩
  · exact (c6_createPost_guards dbW 1 none none none 3).1 ⟨rfl, rfl⟩
  · exact (c6_createPost_guards dbW 99 none (some "http://img") none 3).2.1
      (by decide) rfl
  · exact (c6_createPost_guards dbW 1 none (some "http://img") none 3).2.2
      aliceW (by decide) rfl

/-- C7.  `getUserStories` returns exactly the given user's stories whose
`expires_at` is strictly greater than the single `now` taken once at call time
(the same `now` for every row), ordered by `created_at` descending: it is a
permutation of the matching rows, every member is active for that one `now`,
and the output is pairwise descending in `created_at`. -/
theorem c7_getUserStories (db : DB) (uid : Nat) (now : Int) :
    (∀ s, s ∈ getUserStories db uid now ↔
       s ∈ db.stories ∧ s.user_id = uid ∧ now < s.expires_at) ∧
    (getUserStories db uid now).Pairwise
      (fun s1 s2 => s2.created_at ≤ s1.created_at) ∧
    List.Perm (getUserStories db uid now) (db.stories.filter
      (fun s => s.user_id == uid && decide (now < s.expires_at))) := by
  refine ⟨?_, ?_, ?_⟩
  · intro s
    simp only [getUserStories, List.mem_filter, List.mem_insertionSort]
    constructor
    · rintro ⟨⟨hmem, hu⟩, hact⟩
      exact ⟨hmem, by simpa using hu, by simpa using hact⟩
    · rintro ⟨hmem, hu, hact⟩
      exact ⟨⟨hmem, by simpa using hu⟩, by simpa using hact⟩
  · have hsorted := List.sorted_insertionSort storyOrder
      (db.stories.filter fun s => s.user_id == uid)
    have hfiltered : (getUserStories db uid now).Pairwise storyOrder :=
      List.Pairwise.filter _ hsorted
    exact hfiltered.imp fun h => h
  · have hperm : List.Perm
        (List.insertionSort storyOrder
          (db.stories.filter fun s => s.user_id == uid))
        (db.stories.filter (fun s => s.user_id == uid)) :=
      List.perm_insertionSort storyOrder _
    have h2 := hperm.filter fun s => decide (now < s.expires_at)
    rw [getUserStories]
    refine h2.trans ?_
    rw [List.filter_filter]
    refine List.Perm.of_eq (List.filter_congr ?_)
    intro s _
    rw [Bool.and_comm]

/-- C8.  A DirectMessage is mutable only by its receiver: `markMessageAsRead`
succeeds iff a message with the given id exists whose `receiver_id` is the
caller; on success it sets `is_read := true` on that row leaving `sender_id`,
`receiver_id`, `content` (and every other message row, and every other table)
unchanged; when no such message exists — in particular when the caller is not
the receiver — it fails and the state is exactly the pre-state. -/
theorem c8_mark_message_read (db : DB) (mid uid : Nat) :
    ((¬∃ m ∈ db.directMessages, m.id = mid ∧ m.receiver_id = uid) →
      markMessageAsRead db mid uid = (.error .messageNotAccessible, db)) ∧
    ((∃ m ∈ db.directMessages, m.id = mid ∧ m.receiver_id = uid) →
      ∃ m' db1, markMessageAsRead db mid uid = (.ok m', db1) ∧
        db1.users = db.users ∧ db1.posts = db.posts ∧
        db1.stories = db.stories ∧ db1.likes = db.likes ∧
        db1.comments = db.comments ∧ db1.follows = db.follows ∧
        List.Forall₂ (fun x y : DirectMessage =>
          y.id = x.id ∧ y.sender_id = x.sender_id ∧
          y.receiver_id = x.receiver_id ∧ y.content = x.content ∧
          y.created_at = x.created_at ∧
          (x.id = mid → y.is_read = true) ∧
          (x.id ≠ mid → y = x)) db.directMessages db1.directMessages) := by
  constructor
  · intro hno
    cases hF : db.directMessages.find?
        (fun m => m.id == mid && m.receiver_id == uid) with
    | none => simp [markMessageAsRead, hF]
    | some m0 =>
      exfalso
      refine hno ⟨m0, List.mem_of_find?_eq_some hF, ?_⟩
      have hp := List.find?_some hF
      simp only [Bool.and_eq_true, beq_iff_eq] at hp
      exact hp
  · rintro ⟨m, hmem, hid, hrecv⟩
    cases hF : db.directMessages.find?
        (fun x => x.id == mid && x.receiver_id == uid) with
    | none =>
      exfalso
      rw [List.find?_eq_none] at hF
      exact hF m hmem (by simp [hid, hrecv])
    | some m0 =>
      cases hF2 : (db.directMessages.map fun x =>
          if x.id == mid then { x with is_read := true } else x).find?
          (fun x => x.id == mid) with
      | none =>
        exfalso
        rw [List.find?_eq_none] at hF2
        refine hF2 ((fun x : DirectMessage =>
          if x.id == mid then { x with is_read := true } else x) m)
          (List.mem_map_of_mem _ hmem) ?_
        simp [hid]
      | some m1 =>
        refine ⟨m1,
          { db with directMessages := db.directMessages.map fun x =>
              if x.id == mid then { x with is_read := true } else x },
          ?_, rfl, rfl, rfl, rfl, rfl, rfl, ?_⟩
        · simp only [markMessageAsRead, hF, hF2]
        · rw [List.forall₂_map_right_iff]
          rw [List.forall₂_same]
          intro x _
          by_cases hx : x.id = mid
          · simp [hx]
          · simp [show (x.id == mid) = false by simpa using hx, hx]

theorem c8_mark_message_read_witness :
    ((¬∃ m ∈ ({ dbW with directMessages :=
          [{ id := 4, sender_id := 1, receiver_id := 2, content := "hi",
             is_read := false, created_at := 0 }] } : DB).directMessages,
        m.id = 4 ∧ m.receiver_id = 1) →
      markMessageAsRead { dbW with directMessages :=
          [{ id := 4, sender_id := 1, receiver_id := 2, content := "hi",
             is_read := false, created_at := 0 }] } 4 1 =
        (.error .messageNotAccessible,
         { dbW with directMessages :=
            [{ id := 4, sender_id := 1, receiver_id := 2, content := "hi",
               is_read := false, created_at := 0 }] })) ∧
    markMessageAsRead { dbW with directMessages :=
        [{ id := 4, sender_id := 1, receiver_id := 2, content := "hi",
           is_read := false, created_at := 0 }] } 4 1 =
      (.error .messageNotAccessible,
       { dbW with directMessages :=
          [{ id := 4, sender_id := 1, receiver_id := 2, content := "hi",
             is_read := false, created_at := 0 }] }) :=
  ⟨(c8_mark_message_read { dbW with directMessages :=
      [{ id := 4, sender_id := 1, receiver_id := 2, content := "hi",
         is_read := false, created_at := 0 }] } 4 1).1,
   (c8_mark_message_read { dbW with directMessages :=
      [{ id := 4, sender_id := 1, receiver_id := 2, content := "hi",
         is_read := false, created_at := 0 }] } 4 1).1 (by decide)⟩

/-- C9.  Implicit property of `createStory`: every story it creates expires
exactly 24 hours after its creation — the stored `expires_at` equals the
creation-time timestamp plus 24 hours — so a newly created story is always
active (`expires_at > created_at`) at creation time. -/
theorem c9_story_expiry (db : DB) (uid : Nat) (img vid : Option String)
    (now : Int)
    (hmedia : (jsFalsy img && jsFalsy vid) = false)
    (huser : ∃ u, db.users.find? (fun x => x.id == uid) = some u) :
    ∃ story db1, createStory db uid img vid now = (.ok story, db1) ∧
      story.expires_at = story.created_at + 24 * hourMs ∧
      story.created_at = now ∧
      story.created_at < story.expires_at ∧
      db1.stories = db.stories ++ [story] := by
  obtain ⟨u, hu⟩ := huser
  simp only [createStory, hmedia, Bool.false_eq_true, if_false, hu]
  refine ⟨_, _, rfl, rfl, rfl, ?_, rfl⟩
  simp only [hourMs]
  omega

theorem c9_story_expiry_witness :
    ((jsFalsy (some "http://img") && jsFalsy none) = false ∧
     ∃ u, dbW.users.find? (fun x => x.id == 1) = some u) ∧
    ∃ story db1, createStory dbW 1 (some "http://img") none 100 =
        (.ok story, db1) ∧
      story.expires_at = story.created_at + 24 * hourMs ∧
      story.created_at = 100 ∧
      story.created_at < story.expires_at ∧
      db1.stories = dbW.stories ++ [story] :=
  ⟨⟨by decide, ⟨aliceW, rfl⟩⟩,
   c9_story_expiry dbW 1 (some "http://img") none 100 (by decide)
     ⟨aliceW, rfl⟩⟩

/-- The `updateData` object written by `updateUser`, characterized field by
field: `updated_at` always becomes `now`; a field present in the input
(including an explicit `null`) is overwritten with the given value, an absent
field keeps its old value; no other field is part of the update object. -/
theorem applyUserUpdate_spec (input : UpdateUserInput) (now : Int) (u : User) :
    applyUserUpdate input now u =
      { u with
          updated_at := now,
          username := input.username.getD u.username,
          full_name := input.full_name.getD u.full_name,
          bio := input.bio.getD u.bio,
          profile_image_url := input.profile_image_url.getD u.profile_image_url,
          is_private := input.is_private.getD u.is_private } := by
  unfold applyUserUpdate
  cases input.username <;> cases input.full_name <;> cases input.bio <;>
    cases input.profile_image_url <;> cases input.is_private <;> rfl

/-- C10.  Frame property of `updateUser`: for an existing user it succeeds, and
it modifies only the row with the given id — every other user row and every
other table is unchanged.  On the affected row only the input fields that are
present (not `undefined`) are overwritten (a `null` is written as `null`, an
absent field is left unchanged) plus `updated_at := now`, while `id`, `email`,
`is_verified`, `follower_count`, `following_count`, `posts_count` and
`created_at` are never changed. -/
theorem c10_updateUser_frame (db : DB) (input : UpdateUserInput) (now : Int)
    (h : ∃ u0, db.users.find? (fun x => x.id == input.id) = some u0) :
    ∃ u' db1, updateUser db input now = (.ok u', db1) ∧
      db1.posts = db.posts ∧ db1.stories = db.stories ∧
      db1.likes = db.likes ∧ db1.comments = db.comments ∧
      db1.follows = db.follows ∧ db1.directMessages = db.directMessages ∧
      List.Forall₂ (fun u v : User =>
        v.id = u.id ∧ v.email = u.email ∧ v.is_verified = u.is_verified ∧
        v.follower_count = u.follower_count ∧
        v.following_count = u.following_count ∧
        v.posts_count = u.posts_count ∧ v.created_at = u.created_at ∧
        (u.id ≠ input.id → v = u) ∧
        (u.id = input.id →
          v.updated_at = now ∧
          v.username = input.username.getD u.username ∧
          v.full_name = input.full_name.getD u.full_name ∧
          v.bio = input.bio.getD u.bio ∧
          v.profile_image_url =
            input.profile_image_url.getD u.profile_image_url ∧
          v.is_private = input.is_private.getD u.is_private))
        db.users db1.users := by
  obtain ⟨u0, hu0⟩ := h
  cases hF2 : (db.users.map fun u =>
      if u.id == input.id then applyUserUpdate input now u else u).find?
      (fun u => u.id == input.id) with
  | none =>
    exfalso
    rw [List.find?_eq_none] at hF2
    have hmem : u0 ∈ db.users := List.mem_of_find?_eq_some hu0
    have hid : u0.id = input.id := by simpa using List.find?_some hu0
    refine hF2 ((fun u : User =>
        if u.id == input.id then applyUserUpdate input now u else u) u0)
      (List.mem_map_of_mem _ hmem) ?_
    simp [hid, applyUserUpdate_spec]
  | some u1 =>
    refine ⟨u1,
      { db with users := db.users.map fun u =>
          if u.id == input.id then applyUserUpdate input now u else u },
      ?_, rfl, rfl, rfl, rfl, rfl, rfl, ?_⟩
    · simp only [updateUser, hu0, hF2]
    · rw [List.forall₂_map_right_iff, List.forall₂_same]
      intro x _
      by_cases hx : x.id = input.id
      · simp only [hx, beq_self_eq_true, if_true, applyUserUpdate_spec]
        simp [hx]
      · simp [show (x.id == input.id) = false by simpa using hx, hx]

theorem c10_updateUser_frame_witness :
    (∃ u0, dbW.users.find? (fun x => x.id ==
        ({ id := 1, username := some "alice2", full_name := some (some "Alice"),
           bio := some none, profile_image_url := none,
           is_private := some true } : UpdateUserInput).id) = some u0) ∧
    ∃ u' db1, updateUser dbW
        { id := 1, username := some "alice2", full_name := some (some "Alice"),
          bio := some none, profile_image_url := none,
          is_private := some true } 42 = (.ok u', db1) ∧
      db1.posts = dbW.posts ∧ db1.stories = dbW.stories ∧
      db1.likes = dbW.likes ∧ db1.comments = dbW.comments ∧
      db1.follows = dbW.follows ∧ db1.directMessages = dbW.directMessages ∧
      List.Forall₂ (fun u v : User =>
        v.id = u.id ∧ v.email = u.email ∧ v.is_verified = u.is_verified ∧
        v.follower_count = u.follower_count ∧
        v.following_count = u.following_count ∧
        v.posts_count = u.posts_count ∧ v.created_at = u.created_at ∧
        (u.id ≠ 1 → v = u) ∧
        (u.id = 1 →
          v.updated_at = 42 ∧
          v.username = (some "alice2" : Option String).getD u.username ∧
          v.full_name = (some (some "Alice") :
            Option (Option String)).getD u.full_name ∧
          v.bio = (some none : Option (Option String)).getD u.bio ∧
          v.profile_image_url = (none :
            Option (Option String)).getD u.profile_image_url ∧
          v.is_private = (some true : Option Bool).getD u.is_private))
        dbW.users db1.users :=
  ⟨⟨aliceW, rfl⟩,
   c10_updateUser_frame dbW
     { id := 1, username := some "alice2", full_name := some (some "Alice"),
       bio := some none, profile_image_url := none, is_private := some true }
     42 ⟨aliceW, rfl⟩⟩

/-! ## Atomicity of the write operations (C2) -/

/-- One of the six write operations of the atomicity claim. -/
inductive WriteOp where
  | follow (a b : Nat) (t : Int)
  | unfollow (a b : Nat)
  | like (u p : Nat) (t : Int)
  | unlike (u p : Nat) (t : Int)
  | comment (u p : Nat) (content : String) (t : Int)
  | post (u : Nat) (caption img vid : Option String) (t : Int)
  deriving Repr

/-- Run one write operation, erasing the returned entity. -/
def runWrite (db : DB) : WriteOp → Except Err Unit × DB
  | .follow a b t =>
    ((followUser db a b t).1.map fun _ => (), (followUser db a b t).2)
  | .unfollow a b =>
    ((unfollowUser db a b).1.map fun _ => (), (unfollowUser db a b).2)
  | .like u p t =>
    ((likePost db u p t).1.map fun _ => (), (likePost db u p t).2)
  | .unlike u p t =>
    ((unlikePost db u p t).1.map fun _ => (), (unlikePost db u p t).2)
  | .comment u p content t =>
    ((createComment db u p content t).1.map fun _ => (),
     (createComment db u p content t).2)
  | .post u caption img vid t =>
    ((createPost db u caption img vid t).1.map fun _ => (),
     (createPost db u caption img vid t).2)

/-- The stored `follower_count` of the (first) user row with the given id. -/
def followerCountField (db : DB) (uid : Nat) : Option Int :=
  (db.users.find? (fun u => u.id == uid)).map User.follower_count

/-- The stored `following_count` of the user row with the given id. -/
def followingCountField (db : DB) (uid : Nat) : Option Int :=
  (db.users.find? (fun u => u.id == uid)).map User.following_count

/-- The stored `posts_count` of the user row with the given id. -/
def postsCountField (db : DB) (uid : Nat) : Option Int :=
  (db.users.find? (fun u => u.id == uid)).map User.posts_count

/-- The stored `like_count` of the post row with the given id. -/
def likeCountField (db : DB) (pid : Nat) : Option Int :=
  (db.posts.find? (fun p => p.id == pid)).map Post.like_count

/-- The stored `comment_count` of the post row with the given id. -/
def commentCountField (db : DB) (pid : Nat) : Option Int :=
  (db.posts.find? (fun p => p.id == pid)).map Post.comment_count

/-- Number of Comment rows on post `pid`. -/
def commentRowCount (cs : List Comment) (pid : Nat) : Nat :=
  cs.countP fun c => c.post_id == pid

/-- Number of Post rows owned by user `uid`. -/
def postRowCount (ps : List Post) (uid : Nat) : Nat :=
  ps.countP fun q => q.user_id == uid

/-- The combined effect a successful write operation must have committed: the
relationship-row change together with its counter delta(s), per the spec's
table (follow: edge +1 with both user counters +1; unfollow: edge −1 with both
counters −1; like/unlike: like row ±1 with the post's `like_count` ±1;
comment: comment row +1 with `comment_count` +1; post: post row +1 with the
owner's `posts_count` +1). -/
def writeEffect (db : DB) : WriteOp → DB → Prop
  | .follow a b _, db1 =>
      pairFollowCount db1.follows a b = pairFollowCount db.follows a b + 1 ∧
      followingCountField db1 a = (followingCountField db a).map (· + 1) ∧
      followerCountField db1 b = (followerCountField db b).map (· + 1)
  | .unfollow a b, db1 =>
      pairFollowCount db1.follows a b + 1 = pairFollowCount db.follows a b ∧
      followingCountField db1 a = (followingCountField db a).map (· - 1) ∧
      followerCountField db1 b = (followerCountField db b).map (· - 1)
  | .like u p _, db1 =>
      pairLikeCount db1.likes u p = pairLikeCount db.likes u p + 1 ∧
      likeCountField db1 p = (likeCountField db p).map (· + 1)
  | .unlike u p _, db1 =>
      pairLikeCount db1.likes u p + 1 = pairLikeCount db.likes u p ∧
      likeCountField db1 p = (likeCountField db p).map (· - 1)
  | .comment _ p _ _, db1 =>
      commentRowCount db1.comments p = commentRowCount db.comments p + 1 ∧
      commentCountField db1 p = (commentCountField db p).map (· + 1)
  | .post u _ _ _ _, db1 =>
      postRowCount db1.posts u = postRowCount db.posts u + 1 ∧
      postsCountField db1 u = (postsCountField db u).map (· + 1)

theorem find?_map_of_key {α : Type} (l : List α) (f : α → α) (key : α → Nat)
    (k : Nat) (hf : ∀ x, key (f x) = key x) :
    (l.map f).find? (fun x => key x == k) =
      (l.find? (fun x => key x == k)).map f := by
  rw [List.find?_map]
  refine congrArg (Option.map f) (find?_ext l ?_)
  intro x
  simp [Function.comp, hf]

theorem users_double_map_find? (users : List User) (g1 g2 : User → User)
    (hg1 : ∀ u, (g1 u).id = u.id) (hg2 : ∀ u, (g2 u).id = u.id) (k : Nat) :
    ((users.map g1).map g2).find? (fun u => u.id == k) =
      ((users.find? (fun u => u.id == k)).map g1).map g2 := by
  rw [find?_map_of_key _ g2 User.id k hg2, find?_map_of_key _ g1 User.id k hg1]

theorem commentRowCount_snoc (cs : List Comment) (c : Comment) (pid : Nat) :
    commentRowCount (cs ++ [c]) pid =
      commentRowCount cs pid + (if c.post_id == pid then 1 else 0) := by
  rw [commentRowCount, countP_snoc]; rfl

theorem postRowCount_snoc (ps : List Post) (q : Post) (uid : Nat) :
    postRowCount (ps ++ [q]) uid =
      postRowCount ps uid + (if q.user_id == uid then 1 else 0) := by
  rw [postRowCount, countP_snoc]; rfl

/-- Success effect of `followUser`: edge count and both counters move together. -/
theorem followUser_effect (db : DB) (a b : Nat) (t : Int) (ua ub : User)
    (hne : (a == b) = false)
    (ha : db.users.find? (fun x => x.id == a) = some ua)
    (hb : db.users.find? (fun x => x.id == b) = some ub)
    (hdup : (db.follows.filter
        fun f => f.follower_id == a && f.following_id == b).length = 0) :
    pairFollowCount (followUser db a b t).2.follows a b =
      pairFollowCount db.follows a b + 1 ∧
    followingCountField (followUser db a b t).2 a =
      (followingCountField db a).map (· + 1) ∧
    followerCountField (followUser db a b t).2 b =
      (followerCountField db b).map (· + 1) := by
  have hua : ua.id = a := by simpa using List.find?_some ha
  have hub : ub.id = b := by simpa using List.find?_some hb
  rw [followUser_ok_state db a b t ua ub hne ha hb hdup]
  refine ⟨?_, ?_, ?_⟩
  · rw [pairFollowCount_snoc]
    simp
  · rw [followingCountField, followingCountField,
      users_double_map_find? db.users _ _
        (fun u => by by_cases h : u.id == a <;> simp [h])
        (fun u => by by_cases h : u.id == b <;> simp [h]) a, ha]
    simp [hua, show ¬a = b by simpa using hne]
  · rw [followerCountField, followerCountField,
      users_double_map_find? db.users _ _
        (fun u => by by_cases h : u.id == a <;> simp [h])
        (fun u => by by_cases h : u.id == b <;> simp [h]) b, hb]
    simp [hub, show ¬b = a by
      have hnab : ¬a = b := by simpa using hne
      exact fun h => hnab h.symm]

/-- Success effect of `unfollowUser`: edge count and both counters move
together (edge uniqueness comes from the schema constraint). -/
theorem unfollowUser_effect (db : DB) (a b : Nat) (ua ub : User)
    (ha : db.users.find? (fun x => x.id == a) = some ua)
    (hb : db.users.find? (fun x => x.id == b) = some ub)
    (hex : ((db.follows.filter
        fun f => f.follower_id == a && f.following_id == b).length == 0) = false)
    (hW : EdgesUnique db) :
    pairFollowCount (unfollowUser db a b).2.follows a b + 1 =
      pairFollowCount db.follows a b ∧
    followingCountField (unfollowUser db a b).2 a =
      (followingCountField db a).map (· - 1) ∧
    followerCountField (unfollowUser db a b).2 b =
      (followerCountField db b).map (· - 1) := by
  have hua : ua.id = a := by simpa using List.find?_some ha
  have hub : ub.id = b := by simpa using List.find?_some hb
  have hcnt1 : db.follows.countP
      (fun f => f.follower_id == a && f.following_id == b) = 1 := by
    have hge : (db.follows.filter
        fun f => f.follower_id == a && f.following_id == b).length ≠ 0 := by
      simpa using hex
    have hle := hW.1 a b
    rw [pairFollowCount, List.countP_eq_length_filter] at hle
    rw [List.countP_eq_length_filter]
    omega
  rw [unfollowUser_ok_state db a b ua ub ha hb hex]
  refine ⟨?_, ?_, ?_⟩
  · rw [pairFollowCount, pairFollowCount,
      countP_filter_not_of_imp _ _ _ (fun x _ h => h), hcnt1]
  · rw [followingCountField, followingCountField,
      users_double_map_find? db.users _ _
        (fun u => by by_cases h : u.id == a <;> simp [h])
        (fun u => by by_cases h : u.id == b <;> simp [h]) a, ha]
    simp [hua]
    split <;> rfl
  · rw [followerCountField, followerCountField,
      users_double_map_find? db.users _ _
        (fun u => by by_cases h : u.id == a <;> simp [h])
        (fun u => by by_cases h : u.id == b <;> simp [h]) b, hb]
    simp [hub]
    split <;> simp

/-- Success effect of `likePost`: like row and `like_count` move together. -/
theorem likePost_effect (db : DB) (u p : Nat) (t : Int) (user : User)
    (post : Post)
    (hu : db.users.find? (fun x => x.id == u) = some user)
    (hp : db.posts.find? (fun x => x.id == p) = some post)
    (hdup : (db.likes.filter
        fun l => l.user_id == u && l.post_id == p).length = 0) :
    pairLikeCount (likePost db u p t).2.likes u p =
      pairLikeCount db.likes u p + 1 ∧
    likeCountField (likePost db u p t).2 p =
      (likeCountField db p).map (· + 1) := by
  have hpid : post.id = p := by simpa using List.find?_some hp
  rw [likePost_ok_state db u p t user post hu hp hdup]
  refine ⟨?_, ?_⟩
  · rw [pairLikeCount_snoc]
    simp
  · rw [likeCountField, likeCountField,
      find?_map_of_key db.posts _ Post.id p
        (fun q => by by_cases h : q.id == p <;> simp [h]), hp]
    simp [hpid]

/-- Success effect of `unlikePost`: like row and `like_count` move together. -/
theorem unlikePost_effect (db : DB) (u p : Nat) (t : Int) (user : User)
    (post : Post)
    (hu : db.users.find? (fun x => x.id == u) = some user)
    (hp : db.posts.find? (fun x => x.id == p) = some post)
    (hex : ((db.likes.filter
        fun l => l.user_id == u && l.post_id == p).length == 0) = false)
    (hW : EdgesUnique db) :
    pairLikeCount (unlikePost db u p t).2.likes u p + 1 =
      pairLikeCount db.likes u p ∧
    likeCountField (unlikePost db u p t).2 p =
      (likeCountField db p).map (· - 1) := by
  have hpid : post.id = p := by simpa using List.find?_some hp
  have hcnt1 : db.likes.countP
      (fun l => l.user_id == u && l.post_id == p) = 1 := by
    have hge : (db.likes.filter
        fun l => l.user_id == u && l.post_id == p).length ≠ 0 := by
      simpa using hex
    have hle := hW.2 u p
    rw [pairLikeCount, List.countP_eq_length_filter] at hle
    rw [List.countP_eq_length_filter]
    omega
  rw [unlikePost_ok_state db u p t user post hu hp hex]
  refine ⟨?_, ?_⟩
  · rw [pairLikeCount, pairLikeCount,
      countP_filter_not_of_imp _ _ _ (fun x _ h => h), hcnt1]
  · rw [likeCountField, likeCountField,
      find?_map_of_key db.posts _ Post.id p
        (fun q => by by_cases h : q.id == p <;> simp [h]), hp]
    simp [hpid]

/-- Success effect of `createComment`: comment row and `comment_count` move
together. -/
theorem createComment_effect (db : DB) (u p : Nat) (content : String)
    (t : Int) (user : User) (post : Post)
    (hu : db.users.find? (fun x => x.id == u) = some user)
    (hp : db.posts.find? (fun x => x.id == p) = some post) :
    commentRowCount (createComment db u p content t).2.comments p =
      commentRowCount db.comments p + 1 ∧
    commentCountField (createComment db u p content t).2 p =
      (commentCountField db p).map (· + 1) := by
  have hpid : post.id = p := by simpa using List.find?_some hp
  simp only [createComment, hu, hp]
  refine ⟨?_, ?_⟩
  · rw [commentRowCount_snoc]
    simp
  · rw [commentCountField, commentCountField,
      find?_map_of_key db.posts _ Post.id p
        (fun q => by by_cases h : q.id == p <;> simp [h]), hp]
    simp [hpid]

/-- Success effect of `createPost`: post row and `posts_count` move together. -/
theorem createPost_effect (db : DB) (u : Nat)
    (caption img vid : Option String) (t : Int) (user : User)
    (hmedia : (jsFalsy img && jsFalsy vid) = false)
    (hu : db.users.find? (fun x => x.id == u) = some user) :
    postRowCount (createPost db u caption img vid t).2.posts u =
      postRowCount db.posts u + 1 ∧
    postsCountField (createPost db u caption img vid t).2 u =
      (postsCountField db u).map (· + 1) := by
  have huid : user.id = u := by simpa using List.find?_some hu
  simp only [createPost, hmedia, Bool.false_eq_true, if_false, hu]
  refine ⟨?_, ?_⟩
  · rw [postRowCount_snoc]
    simp
  · rw [postsCountField, postsCountField,
      find?_map_of_key db.users _ User.id u
        (fun q => by by_cases h : q.id == u <;> simp [h]), hu]
    simp [huid]

/-- C2.  Atomicity of the write operations: each of followUser, unfollowUser,
likePost, unlikePost, createComment and createPost either fails — raising the
originating error with the resulting state exactly the pre-state, so no
partial state is observable — or succeeds with the relationship-row change and
its counter delta(s) committed together in the one resulting state (the
`EdgesUnique` hypothesis is the schema's unique-pair constraints). -/
theorem c2_write_atomicity (db : DB) (op : WriteOp) (hW : EdgesUnique db) :
    (∃ e, (runWrite db op).1 = .error e ∧ (runWrite db op).2 = db) ∨
    ((runWrite db op).1 = .ok () ∧ writeEffect db op (runWrite db op).2) := by
  cases op with
  | follow a b t =>
    by_cases hne : (a == b) = true
    · exact Or.inl ⟨.selfFollow, by simp [runWrite, Except.map, followUser, hne],
        by simp [runWrite, Except.map, followUser, hne]⟩
    · have hne' : (a == b) = false := by simpa using hne
      cases ha : db.users.find? (fun x => x.id == a) with
      | none =>
        exact Or.inl ⟨.followerNotFound,
          by simp [runWrite, Except.map, followUser, hne', ha],
          by simp [runWrite, Except.map, followUser, hne', ha]⟩
      | some ua =>
        cases hb : db.users.find? (fun x => x.id == b) with
        | none =>
          exact Or.inl ⟨.followingNotFound,
            by simp [runWrite, Except.map, followUser, hne', ha, hb],
            by simp [runWrite, Except.map, followUser, hne', ha, hb]⟩
        | some ub =>
          by_cases hdup : (db.follows.filter
              fun f => f.follower_id == a && f.following_id == b).length = 0
          · refine Or.inr ⟨?_, ?_⟩
            · simp [runWrite, Except.map, followUser_ok_state db a b t ua ub hne' ha hb hdup]
            · exact followUser_effect db a b t ua ub hne' ha hb hdup
          · exact Or.inl ⟨.followExists,
              by simp [runWrite, Except.map, followUser, hne', ha, hb, hdup],
              by simp [runWrite, Except.map, followUser, hne', ha, hb, hdup]⟩
  | unfollow a b =>
    cases ha : db.users.find? (fun x => x.id == a) with
    | none =>
      exact Or.inl ⟨.followerNotFound, by simp [runWrite, Except.map, unfollowUser, ha],
        by simp [runWrite, Except.map, unfollowUser, ha]⟩
    | some ua =>
      cases hb : db.users.find? (fun x => x.id == b) with
      | none =>
        exact Or.inl ⟨.followingNotFound,
          by simp [runWrite, Except.map, unfollowUser, ha, hb],
          by simp [runWrite, Except.map, unfollowUser, ha, hb]⟩
      | some ub =>
        by_cases hex : ((db.follows.filter
            fun f => f.follower_id == a && f.following_id == b).length == 0) = true
        · exact Or.inl ⟨.followMissing,
            by simp [runWrite, Except.map, unfollowUser, ha, hb, hex],
            by simp [runWrite, Except.map, unfollowUser, ha, hb, hex]⟩
        · have hex' : ((db.follows.filter
              fun f => f.follower_id == a &&
                f.following_id == b).length == 0) = false := by
            simpa using hex
          refine Or.inr ⟨?_, ?_⟩
          · simp [runWrite, Except.map, unfollowUser_ok_state db a b ua ub ha hb hex']
          · exact unfollowUser_effect db a b ua ub ha hb hex' hW
  | like u p t =>
    cases hu : db.users.find? (fun x => x.id == u) with
    | none =>
      exact Or.inl ⟨.userNotFound, by simp [runWrite, Except.map, likePost, hu],
        by simp [runWrite, Except.map, likePost, hu]⟩
    | some user =>
      cases hp : db.posts.find? (fun x => x.id == p) with
      | none =>
        exact Or.inl ⟨.postNotFound, by simp [runWrite, Except.map, likePost, hu, hp],
          by simp [runWrite, Except.map, likePost, hu, hp]⟩
      | some post =>
        by_cases hdup : (db.likes.filter
            fun l => l.user_id == u && l.post_id == p).length = 0
        · refine Or.inr ⟨?_, ?_⟩
          · simp [runWrite, Except.map, likePost_ok_state db u p t user post hu hp hdup]
          · exact likePost_effect db u p t user post hu hp hdup
        · exact Or.inl ⟨.alreadyLiked,
            by simp [runWrite, Except.map, likePost, hu, hp, hdup],
            by simp [runWrite, Except.map, likePost, hu, hp, hdup]⟩
  | unlike u p t =>
    cases hu : db.users.find? (fun x => x.id == u) with
    | none =>
      exact Or.inl ⟨.userNotFound, by simp [runWrite, Except.map, unlikePost, hu],
        by simp [runWrite, Except.map, unlikePost, hu]⟩
    | some user =>
      cases hp : db.posts.find? (fun x => x.id == p) with
      | none =>
        exact Or.inl ⟨.postNotFound, by simp [runWrite, Except.map, unlikePost, hu, hp],
          by simp [runWrite, Except.map, unlikePost, hu, hp]⟩
      | some post =>
        by_cases hex : ((db.likes.filter
            fun l => l.user_id == u && l.post_id == p).length == 0) = true
        · exact Or.inl ⟨.likeMissing,
            by simp [runWrite, Except.map, unlikePost, hu, hp, hex],
            by simp [runWrite, Except.map, unlikePost, hu, hp, hex]⟩
        · have hex' : ((db.likes.filter
              fun l => l.user_id == u && l.post_id == p).length == 0) = false := by
            simpa using hex
          refine Or.inr ⟨?_, ?_⟩
          · simp [runWrite, Except.map, unlikePost_ok_state db u p t user post hu hp hex']
          · exact unlikePost_effect db u p t user post hu hp hex' hW
  | comment u p content t =>
    cases hu : db.users.find? (fun x => x.id == u) with
    | none =>
      exact Or.inl ⟨.userNotFound, by simp [runWrite, Except.map, createComment, hu],
        by simp [runWrite, Except.map, createComment, hu]⟩
    | some user =>
      cases hp : db.posts.find? (fun x => x.id == p) with
      | none =>
        exact Or.inl ⟨.postNotFound,
          by simp [runWrite, Except.map, createComment, hu, hp],
          by simp [runWrite, Except.map, createComment, hu, hp]⟩
      | some post =>
        refine Or.inr ⟨?_, ?_⟩
        · simp [runWrite, Except.map, createComment, hu, hp]
        · exact createComment_effect db u p content t user post hu hp
  | post u caption img vid t =>
    by_cases hmedia : (jsFalsy img && jsFalsy vid) = true
    · exact Or.inl ⟨.noMedia, by simp [runWrite, Except.map, createPost, hmedia],
        by simp [runWrite, Except.map, createPost, hmedia]⟩
    · have hmedia' : (jsFalsy img && jsFalsy vid) = false := by simpa using hmedia
      cases hu : db.users.find? (fun x => x.id == u) with
      | none =>
        exact Or.inl ⟨.userNotFound,
          by simp [runWrite, Except.map, createPost, hmedia', hu],
          by simp [runWrite, Except.map, createPost, hmedia', hu]⟩
      | some user =>
        refine Or.inr ⟨?_, ?_⟩
        · simp [runWrite, Except.map, createPost, hmedia', hu]
        · exact createPost_effect db u caption img vid t user hmedia' hu

theorem c2_write_atomicity_witness :
    EdgesUnique dbW ∧
    ((∃ e, (runWrite dbW (WriteOp.like 1 7 3)).1 = .error e ∧
        (runWrite dbW (WriteOp.like 1 7 3)).2 = dbW) ∨
     ((runWrite dbW (WriteOp.like 1 7 3)).1 = .ok () ∧
        writeEffect dbW (WriteOp.like 1 7 3)
          (runWrite dbW (WriteOp.like 1 7 3)).2)) :=
  ⟨dbW_edgesUnique, c2_write_atomicity dbW (WriteOp.like 1 7 3) dbW_edgesUnique⟩

end InstaClone
